import Mathlib

/-!
Shallow embedding of `src/watcher/watcher.py` (blue/green deployment log
watcher): the line-to-event parser, the failover detector, the sliding-window
error-rate estimator, and the cooldown-gated alert dispatcher, together with
the per-line driver step of `main`.

Modelling conventions:
* Python strings are Lean `String` / `List Char`; the regex character classes
  `\w`, `\d`, `\s` are modelled over ASCII (`Char.isAlphanum`, `Char.isDigit`,
  an explicit whitespace set).
* A Python function that may raise is modelled with `Option`: `none` is a
  raised exception escaping the function.
* Python floats are idealised as `ℚ` (the concrete rates the claims mention,
  2.5 and 2.0, are exactly representable as doubles, and the comparisons the
  code performs on them agree with exact rational arithmetic).
* The outcome of the one external call (`requests.post`) is an explicit input
  (`TransportOutcome`), and timestamps (`datetime.now()`) are explicit `ℚ`
  parameters, seconds on an arbitrary clock.
-/

/-! ### Regex search primitives -/

/-- ASCII model of the regex class `\w` (used by `pool=(\w+)`). -/
def isWordChar (c : Char) : Bool := c.isAlphanum || c = '_'

/-- ASCII model of the regex class `[\w\-\.]` (used by `release=([\w\-\.]+)`). -/
def isReleaseChar (c : Char) : Bool := isWordChar c || c = '-' || c = '.'

/-- Model of the regex class `[\d\.]` (used by `request_time=` / `upstream_time=`). -/
def isFloatChar (c : Char) : Bool := c.isDigit || c = '.'

/-- Model of the regex class `[\d\.:]` (used by `upstream=([\d\.:]+)`). -/
def isUpstreamChar (c : Char) : Bool := c.isDigit || c = '.' || c = ':'

/-- ASCII model of the regex class `\s`. -/
def isPySpace (c : Char) : Bool :=
  c = ' ' || c = '\t' || c = '\n' || c = '\x0d' || c = '\x0b' || c = '\x0c'

/-- Does `key` occur literally at the head of `l`?  If so return the rest. -/
def matchLiteral : List Char → List Char → Option (List Char)
  | [], rest => some rest
  | _ :: _, [] => none
  | k :: ks, c :: cs => if c = k then matchLiteral ks cs else none

/-- Model of `re.search(key ++ "(cls+)", line)` for a literal `key` followed by a
greedy, nonempty capture of characters in class `cls`: scan start positions
left to right; at the first position where the literal matches and at least
one class character follows, return the maximal run of class characters. -/
def searchKeyVal (key : List Char) (cls : Char → Bool) : List Char → Option (List Char)
  | [] => none
  | c :: cs =>
    match matchLiteral key (c :: cs) with
    | some rest =>
      let cap := rest.takeWhile cls
      if cap.isEmpty then searchKeyVal key cls cs else some cap
    | none => searchKeyVal key cls cs

/-- One start-position attempt of `re.search(r'"\s+(\d{3})\s+', ...)`, applied
just after a `"`: greedily consume `\s+` (nonempty), then exactly three digits
not followed by a fourth digit-or-non-space — i.e. followed by a `\s`. -/
def tryHttpStatusAt (cs : List Char) : Option (List Char) :=
  let ws := cs.takeWhile isPySpace
  if ws.isEmpty then none
  else
    match cs.drop ws.length with
    | d1 :: d2 :: d3 :: r1 :: _ =>
      if d1.isDigit && d2.isDigit && d3.isDigit && isPySpace r1 then
        some [d1, d2, d3]
      else none
    | _ => none

/-- Model of `re.search(r'"\s+(\d{3})\s+', line)`: leftmost `"` from which the rest of
the pattern matches. -/
def searchHttpStatus : List Char → Option (List Char)
  | [] => none
  | c :: cs =>
    if c = '"' then
      match tryHttpStatusAt cs with
      | some cap => some cap
      | none => searchHttpStatus cs
    else searchHttpStatus cs

/-! ### Numeric conversions -/

/-- Python `int` on a nonempty string of ASCII digits (the capture of `(\d+)`
or `(\d{3})`); this conversion never fails. -/
def digitsToNat (ds : List Char) : Nat :=
  ds.foldl (fun n c => n * 10 + (c.toNat - '0'.toNat)) 0

/-- Python `float` restricted to strings over the class `[\d\.]` (the capture
of `([\d\.]+)`): it succeeds exactly when the string holds at most one dot and
at least one digit (`float(".")`, `float("..")`, `float("1.2.3")` all raise
`ValueError`), and then denotes `intpart.fracpart` as an exact rational. -/
def pyFloatDigitsDots (s : List Char) : Option ℚ :=
  if s.count '.' ≤ 1 && s.any Char.isDigit then
    let ip := s.takeWhile (fun c => c ≠ '.')
    let fp := (s.dropWhile (fun c => c ≠ '.')).drop 1
    some ((digitsToNat ip : ℚ) + (digitsToNat fp : ℚ) / ((10 : ℚ) ^ fp.length))
  else none

/-! ### The event parser (`parse_log_line`) -/

/-- The structured event produced by `parse_log_line`: each field is
independently optional (`None` in Python is `none`). -/
structure RequestEvent where
  pool : Option String
  release : Option String
  upstream_status : Option Nat
  upstream : Option String
  request_time : Option ℚ
  upstream_time : Option ℚ
  status : Option Nat
deriving Repr, DecidableEq

/-- A matched `request_time=` / `upstream_time=` capture goes through
Python `float`, whose `ValueError` escapes the parser (`none` here);
an unmatched field is simply absent (`some none`). -/
def convertTime : Option (List Char) → Option (Option ℚ)
  | none => some none
  | some cap => (pyFloatDigitsDots cap).map some

/-- Model of `parse_log_line` in `watcher.py`: seven independent regex extractions, in
source order; `none` models an exception escaping the function (which the
source does not catch). -/
def parse_log_line (line : String) : Option RequestEvent := do
  let cs := line.data
  let pool := (searchKeyVal "pool=".data isWordChar cs).map (String.mk)
  let release := (searchKeyVal "release=".data isReleaseChar cs).map (String.mk)
  let upstream_status := (searchKeyVal "upstream_status=".data Char.isDigit cs).map digitsToNat
  let upstream := (searchKeyVal "upstream=".data isUpstreamChar cs).map (String.mk)
  let request_time ← convertTime (searchKeyVal "request_time=".data isFloatChar cs)
  let upstream_time ← convertTime (searchKeyVal "upstream_time=".data isFloatChar cs)
  let status := (searchHttpStatus cs).map digitsToNat
  pure { pool, release, upstream_status, upstream, request_time, upstream_time, status }

/-! ### The failover detector (`detect_failover`) -/

/-- The failover alert raised by `detect_failover`: the message it hands to
`send_slack_alert` carries the old pool (`From:`) and the new one (`To:`). -/
structure FailoverAlert where
  fromPool : String
  toPool : String
deriving Repr, DecidableEq

/-- The pool-tracking logic of `detect_failover` in `watcher.py`: given the
held `last_pool` and the event's pool, return the new `last_pool` and the
failover alert raised (i.e. passed to `send_slack_alert`), if any.  A falsy
`current_pool` (`None` or the empty string) is ignored; the first truthy pool
establishes the baseline silently; a changed pool raises an alert and the
held state is then updated unconditionally. -/
def detect_failover (lastPool currentPool : Option String) :
    Option String × Option FailoverAlert :=
  match currentPool with
  | none => (lastPool, none)
  | some p =>
    if p = "" then (lastPool, none)
    else
      match lastPool with
      | none => (some p, none)
      | some q => if p ≠ q then (some p, some ⟨q, p⟩) else (lastPool, none)

/-- Run the failover detector over a sequence of events' pool fields,
collecting the raised alerts in order. -/
def runDetector (lastPool : Option String) : List (Option String) →
    Option String × List FailoverAlert
  | [] => (lastPool, [])
  | p :: ps =>
    let (lp, al) := detect_failover lastPool p
    let (lp', als) := runDetector lp ps
    (lp', al.toList ++ als)

/-! ### The bounded error window (`request_window = deque(maxlen=WINDOW_SIZE)`) -/

/-- Model of `collections.deque(maxlen=cap).append`: append on the right, evicting from
the left whenever the capacity would be exceeded. -/
def windowAppend (cap : Nat) (w : List Nat) (s : Nat) : List Nat :=
  if w.length < cap then w ++ [s] else (w ++ [s]).drop (w.length + 1 - cap)

/-- The window contents after appending every element of `xs`, in order, to an
initially empty `deque(maxlen=cap)`. -/
def runWindow (cap : Nat) (xs : List Nat) : List Nat :=
  xs.foldl (windowAppend cap) []

/-- The last `cap` elements of a list (all of it when shorter). -/
def takeLast (cap : Nat) (l : List Nat) : List Nat := l.drop (l.length - cap)

/-! ### The error-rate estimator (`check_error_rate`) -/

/-- The high-error-rate alert message carries the computed rate and the error
count (`WINDOW_SIZE` and the timestamp are ambient). -/
structure ErrorRateAlert where
  rate : ℚ
  errorCount : Nat
deriving Repr, DecidableEq

/-- Model of `check_error_rate` in `watcher.py`: inert while the window holds fewer
than `WINDOW_SIZE` entries; otherwise count entries that are truthy and
`>= 500` (`status and status >= 500`), compute
`(error_count / WINDOW_SIZE) * 100`, and raise the alert iff the rate strictly
exceeds the threshold. -/
def check_error_rate (windowSize : Nat) (threshold : ℚ) (w : List Nat) :
    Option ErrorRateAlert :=
  if w.length < windowSize then none
  else
    let errorCount := (w.filter (fun s => s ≠ 0 && 500 ≤ s)).length
    let errorRate : ℚ := ((errorCount : ℚ) / (windowSize : ℚ)) * 100
    if errorRate > threshold then some ⟨errorRate, errorCount⟩ else none

/-- The count the spec's formula speaks about: entries with status ≥ 500. -/
def count500 (w : List Nat) : Nat := (w.filter (fun s => 500 ≤ s)).length

/-! ### The alert dispatcher (`send_slack_alert`) -/

/-- Static configuration read from the environment at process start. -/
structure Config where
  maintenance_mode : Bool
  slack_webhook_url : Option String
  alert_cooldown_sec : ℚ
deriving Repr

/-- The fate of one `requests.post` attempt, an input to the model: a response
with some HTTP status, or a transport error (timeout / connection exception). -/
inductive TransportOutcome where
  | response (status : Nat)
  | failure
deriving Repr, DecidableEq

/-- What one call to `send_slack_alert` did. -/
inductive DispatchResult where
  | sent
  | suppressedMaintenance
  | suppressedUnconfigured
  | suppressedCooldown
  | sendFailed
deriving Repr, DecidableEq

/-- The state `last_alert_time`: per-category timestamp of the last successful send. -/
def CooldownTable := String → Option ℚ

/-- Model of the dict assignment `last_alert_time[k] = now`. -/
def tableSet (t : CooldownTable) (k : String) (v : ℚ) : CooldownTable :=
  fun k' => if k' = k then some v else t k'

/-- Model of `if not SLACK_WEBHOOK_URL`: `None` and the empty string are falsy. -/
def webhookConfigured : Option String → Bool
  | none => false
  | some s => s ≠ ""

/-- Model of `send_slack_alert` in `watcher.py`: suppression checks in source order
(maintenance mode, unconfigured webhook, per-category cooldown), then the
transport attempt; only a 200 response records `last_alert_time[alert_type] =
now` — any other outcome leaves the table untouched. -/
def send_slack_alert (cfg : Config) (table : CooldownTable) (alertType : String)
    (now : ℚ) (outcome : TransportOutcome) : CooldownTable × DispatchResult :=
  if cfg.maintenance_mode then (table, .suppressedMaintenance)
  else if ¬ webhookConfigured cfg.slack_webhook_url then (table, .suppressedUnconfigured)
  else
    let cooldownActive : Bool :=
      match table alertType with
      | some t => decide (now - t < cfg.alert_cooldown_sec)
      | none => false
    if cooldownActive then (table, .suppressedCooldown)
    else
      match outcome with
      | .response s =>
        if s = 200 then (tableSet table alertType now, .sent) else (table, .sendFailed)
      | .failure => (table, .sendFailed)

/-- The full body of `detect_failover` including its call to
`send_slack_alert` with `alert_type='failover'`: the held pool state, the
cooldown table, and the dispatch result.  `last_pool = current_pool` runs
after the dispatch, unconditionally of its outcome. -/
def detect_failover_step (cfg : Config) (table : CooldownTable) (now : ℚ)
    (outcome : TransportOutcome) (lastPool currentPool : Option String) :
    Option String × CooldownTable × Option DispatchResult :=
  let (lp, al) := detect_failover lastPool currentPool
  match al with
  | some _ =>
    let (t', r) := send_slack_alert cfg table "failover" now outcome
    (lp, t', some r)
  | none => (lp, table, none)

/-! ### The driver step (`main`'s per-line body, state-tracking part) -/

/-- The driver loop's mutable state: `last_pool`, `request_window`,
`request_count`. -/
structure LoopState where
  last_pool : Option String
  request_window : List Nat
  request_count : Nat
deriving Repr, DecidableEq

/-- One iteration of `main`'s loop over an already-parsed event, with
`WINDOW_SIZE = cap`: `if data['upstream_status']:` (a truthiness test, so a
present status of `0` is skipped) appends to the window and bumps the counter;
`if data['pool']:` runs the failover detector.  Returns the new state and the
failover alert raised, if any. -/
def mainStep (cap : Nat) (st : LoopState) (e : RequestEvent) :
    LoopState × Option FailoverAlert :=
  let (w, cnt) :=
    match e.upstream_status with
    | some n =>
      if n ≠ 0 then (windowAppend cap st.request_window n, st.request_count + 1)
      else (st.request_window, st.request_count)
    | none => (st.request_window, st.request_count)
  let (lp, al) :=
    match e.pool with
    | some p =>
      if p ≠ "" then detect_failover st.last_pool (some p)
      else (st.last_pool, none)
    | none => (st.last_pool, none)
  (⟨lp, w, cnt⟩, al)

/-! ### Supporting lemmas -/

/-- A successful `searchKeyVal` capture is nonempty: the regexes capture with
`+`, so a matched `pool=` (etc.) value has at least one character.  This is
why pool labels reaching the failover detector are never the empty string. -/
theorem searchKeyVal_ne_nil (key : List Char) (cls : Char → Bool) :
    ∀ cs cap, searchKeyVal key cls cs = some cap → cap ≠ [] := by
  intro cs
  induction cs with
  | nil => intro cap h; simp [searchKeyVal] at h
  | cons c cs ih =>
    intro cap h
    rw [searchKeyVal] at h
    rcases hm : matchLiteral key (c :: cs) with _ | rest <;> rw [hm] at h
    · exact ih cap h
    · simp only at h
      by_cases he : (rest.takeWhile cls).isEmpty
      · rw [if_pos he] at h
        exact ih cap h
      · rw [if_neg he] at h
        obtain rfl := Option.some.inj h.symm
        intro hnil
        rw [hnil] at he
        exact he rfl

/-- A parsed event never carries the empty string as its pool label, so the
nonemptiness hypotheses on pool labels in the detector theorems cover every
event the parser can produce. -/
theorem parse_pool_nonempty (line : String) (e : RequestEvent)
    (h : parse_log_line line = some e) : e.pool ≠ some "" := by
  unfold parse_log_line at h
  simp only [] at h
  rcases h1 : convertTime (searchKeyVal "request_time=".data isFloatChar line.data)
    with _ | rt <;> rw [h1] at h
  · simp at h
  rcases h2 : convertTime (searchKeyVal "upstream_time=".data isFloatChar line.data)
    with _ | ut <;> rw [h2] at h
  · simp at h
  simp at h
  rw [← h]
  rcases hs : searchKeyVal "pool=".data isWordChar line.data with _ | cap
  · simp [hs]
  · simp only [hs, ne_eq]
    intro hc
    simp only [Option.map_some', Option.some.injEq] at hc
    have hcap : cap = [] := by
      have hd := congrArg String.data hc
      simpa using hd
    exact searchKeyVal_ne_nil _ _ _ _ hs hcap

/-- One deque append keeps exactly the last `cap` elements of the extended
window. -/
theorem windowAppend_eq_takeLast (cap : Nat) (w : List Nat) (s : Nat) :
    windowAppend cap w s = takeLast cap (w ++ [s]) := by
  unfold windowAppend takeLast
  by_cases h : w.length < cap
  · rw [if_pos h, List.length_append, List.length_singleton,
      Nat.sub_eq_zero_of_le (by omega), List.drop_zero]
  · rw [if_neg h, List.length_append, List.length_singleton]

/-- Taking the last `cap` elements before appending more does not change the
last `cap` elements of the result. -/
theorem takeLast_append_left (cap : Nat) (l m : List Nat) :
    takeLast cap (takeLast cap l ++ m) = takeLast cap (l ++ m) := by
  unfold takeLast
  rcases Nat.lt_or_ge l.length cap with h | h
  · rw [Nat.sub_eq_zero_of_le (Nat.le_of_lt h), List.drop_zero]
  · rw [List.drop_append_eq_append_drop, List.drop_append_eq_append_drop,
      List.drop_drop]
    have hlen : (l.drop (l.length - cap)).length = cap := by
      rw [List.length_drop]; omega
    rw [List.length_append, List.length_append, hlen]
    have e1 : l.length - cap + (cap + m.length - cap) = l.length + m.length - cap := by omega
    have e2 : cap + m.length - cap - cap = l.length + m.length - cap - l.length := by omega
    rw [e1, e2]

/-- Folding deque appends over `xs` from any starting window keeps exactly the
last `cap` elements of the concatenation. -/
theorem foldl_windowAppend_takeLast (cap : Nat) (xs : List Nat) :
    ∀ l : List Nat, xs.foldl (windowAppend cap) (takeLast cap l) = takeLast cap (l ++ xs) := by
  induction xs with
  | nil => intro l; rw [List.foldl_nil, List.append_nil]
  | cons x xs ih =>
    intro l
    rw [List.foldl_cons, windowAppend_eq_takeLast, takeLast_append_left, ih (l ++ [x]),
      List.append_assoc, List.singleton_append]

/-- The window built by appending `xs` to an empty deque is exactly the last
`cap` elements of `xs`. -/
theorem runWindow_eq_takeLast (cap : Nat) (xs : List Nat) :
    runWindow cap xs = takeLast cap xs := by
  have h := foldl_windowAppend_takeLast cap xs []
  simpa [runWindow, takeLast] using h

/-- The truthiness guard in `status and status >= 500` is redundant for the
count: a status `≥ 500` is nonzero, so the code counts exactly the entries
`≥ 500`. -/
theorem filter_error_eq_count500 (w : List Nat) :
    (w.filter (fun s => s ≠ 0 && 500 ≤ s)).length = count500 w := by
  unfold count500
  congr 1
  apply List.filter_congr
  intro s _
  by_cases h : 500 ≤ s
  · simp [h]; omega
  · simp [h]

/-- The dispatch result of `send_slack_alert` depends on the cooldown table
only through the entry of the dispatched category. -/
theorem send_result_only_entry (cfg : Config) (T table : CooldownTable) (c : String)
    (now : ℚ) (o : TransportOutcome) (h : T c = table c) :
    (send_slack_alert cfg T c now o).2 = (send_slack_alert cfg table c now o).2 := by
  by_cases hm : cfg.maintenance_mode
  · simp [send_slack_alert, hm]
  by_cases hw : webhookConfigured cfg.slack_webhook_url
  case neg => simp [send_slack_alert, hm, hw]
  rcases htc : table c with _ | t
  · have hT : T c = none := h.trans htc
    rcases o with s | _
    · by_cases hs : s = 200 <;> simp [send_slack_alert, hm, hw, htc, hT, hs]
    · simp [send_slack_alert, hm, hw, htc, hT]
  · have hT : T c = some t := h.trans htc
    by_cases hcd : now - t < cfg.alert_cooldown_sec
    · simp [send_slack_alert, hm, hw, htc, hT, hcd]
    · rcases o with s | _
      · by_cases hs : s = 200 <;> simp [send_slack_alert, hm, hw, htc, hT, hcd, hs]
      · simp [send_slack_alert, hm, hw, htc, hT, hcd]

/-! ### Claim theorems -/

/-- C1 (code bug): the spec requires `parse_log_line` to be a total function
that never raises, with unmatched fields left absent; but on the input line
`request_time=.` the regex `request_time=([\d\.]+)` captures `"."` and Python
`float(".")` raises `ValueError`, which escapes the parser (modelled here as
the parser evaluating to `none`).  The same happens for any captured
digits-and-dots string with no digit or more than one dot (`"1.2.3"`). -/
theorem C1_parse_raises_on_malformed_float :
    parse_log_line "request_time=." = none := by rfl

/-- C2: from the unestablished state, the pool-label sequence `p0, p1, p1, p2`
(labels nonempty, `p0 ≠ p1`, `p1 ≠ p2`) raises exactly two failover alerts:
`p0` establishes the baseline silently, the first `p1` raises `(from=p0,
to=p1)`, the repeated `p1` raises nothing, and `p2` raises `(from=p1, to=p2)`.
Pool labels are nonempty for every parser-produced event
(`parse_pool_nonempty`). -/
theorem C2_failover_alert_sequence (p0 p1 p2 : String)
    (h0 : p0 ≠ "") (h1 : p1 ≠ "") (h2 : p2 ≠ "")
    (h01 : p0 ≠ p1) (h12 : p1 ≠ p2) :
    detect_failover none (some p0) = (some p0, none) ∧
    detect_failover (some p0) (some p1) = (some p1, some ⟨p0, p1⟩) ∧
    detect_failover (some p1) (some p1) = (some p1, none) ∧
    detect_failover (some p1) (some p2) = (some p2, some ⟨p1, p2⟩) ∧
    runDetector none [some p0, some p1, some p1, some p2] =
      (some p2, [⟨p0, p1⟩, ⟨p1, p2⟩]) := by
  have h10 : p1 ≠ p0 := Ne.symm h01
  have h21 : p2 ≠ p1 := Ne.symm h12
  refine ⟨?_, ?_, ?_, ?_, ?_⟩ <;>
    simp [runDetector, detect_failover, h0, h1, h2, h10, h21]

/-- Witness for C2 at the concrete labels blue, green, green, red. -/
theorem C2_failover_alert_sequence_witness :
    detect_failover none (some "blue") = (some "blue", none) ∧
    detect_failover (some "blue") (some "green") = (some "green", some ⟨"blue", "green"⟩) ∧
    detect_failover (some "green") (some "green") = (some "green", none) ∧
    detect_failover (some "green") (some "red") = (some "red", some ⟨"green", "red"⟩) ∧
    runDetector none [some "blue", some "green", some "green", some "red"] =
      (some "red", [⟨"blue", "green"⟩, ⟨"green", "red"⟩]) :=
  C2_failover_alert_sequence "blue" "green" "red" (by decide) (by decide) (by decide)
    (by decide) (by decide)

/-- C3: the estimator is inert below saturation, and at saturation
(`len = capacity`, capacity positive) it raises the alert exactly when
`100 * count(status ≥ 500) / capacity` strictly exceeds the threshold, the
alert carrying that exact rate and count. -/
theorem C3_error_rate_alert_iff_over_threshold (cap : Nat) (threshold : ℚ)
    (w : List Nat) (hcap : 0 < cap) :
    (w.length < cap → check_error_rate cap threshold w = none) ∧
    (w.length = cap →
      check_error_rate cap threshold w =
        if threshold < 100 * (count500 w : ℚ) / (cap : ℚ)
        then some ⟨100 * (count500 w : ℚ) / (cap : ℚ), count500 w⟩ else none) := by
  constructor
  · intro h
    unfold check_error_rate
    rw [if_pos h]
  · intro h
    unfold check_error_rate
    rw [if_neg (by omega)]
    rw [filter_error_eq_count500]
    have hrate : ((count500 w : ℚ) / (cap : ℚ)) * 100 = 100 * (count500 w : ℚ) / (cap : ℚ) := by
      ring
    simp only [gt_iff_lt]
    rw [hrate]

/-- Witness for C3: with capacity 200 and threshold 2, a window of 195
status-200 and 5 status-500 entries has rate 5/2 = 2.5 and alerts, a window of
196 and 4 has rate 2 and does not, and an unsaturated window never alerts. -/
theorem C3_error_rate_alert_witness :
    check_error_rate 200 2 (List.replicate 195 200 ++ List.replicate 5 500) =
      some ⟨5/2, 5⟩ ∧
    check_error_rate 200 2 (List.replicate 196 200 ++ List.replicate 4 500) = none ∧
    check_error_rate 200 2 [500] = none := by
  have hc1 : count500 (List.replicate 195 200 ++ List.replicate 5 500) = 5 := by decide
  have hc2 : count500 (List.replicate 196 200 ++ List.replicate 4 500) = 4 := by decide
  have h1 := (C3_error_rate_alert_iff_over_threshold 200 2
    (List.replicate 195 200 ++ List.replicate 5 500) (by norm_num)).2 (by rfl)
  have h2 := (C3_error_rate_alert_iff_over_threshold 200 2
    (List.replicate 196 200 ++ List.replicate 4 500) (by norm_num)).2 (by rfl)
  have h3 := (C3_error_rate_alert_iff_over_threshold 200 2 [500] (by norm_num)).1
    (by norm_num)
  rw [hc1] at h1
  rw [hc2] at h2
  rw [h1, h2]
  refine ⟨by norm_num, by norm_num, h3⟩

/-- C4: the bounded window is FIFO with capacity `cap`: after appending any
sequence `xs` the window is exactly the most recent `min (xs.length) cap`
entries of `xs` in order (so after `cap + 1` appends the oldest entry has been
evicted), and it never exceeds the capacity at any point along the way. -/
theorem C4_window_bounded_fifo (cap : Nat) (xs : List Nat) :
    runWindow cap xs = xs.drop (xs.length - cap) ∧
    (runWindow cap xs).length = min xs.length cap ∧
    ∀ n : Nat, (runWindow cap (xs.take n)).length ≤ cap := by
  refine ⟨runWindow_eq_takeLast cap xs, ?_, ?_⟩
  · rw [runWindow_eq_takeLast]; unfold takeLast; rw [List.length_drop]; omega
  · intro n
    rw [runWindow_eq_takeLast]; unfold takeLast; rw [List.length_drop]; omega

/-- C5: when the transport attempt of a dispatch fails (transport error or a
non-200 response), the cooldown table is unchanged, and a following dispatch
of the same category at any later time again reaches the transport (it ends
`sent` or `sendFailed`, never suppressed). -/
theorem C5_transport_failure_keeps_cooldown (cfg : Config) (table : CooldownTable)
    (c : String) (now : ℚ) (outcome : TransportOutcome)
    (h : (send_slack_alert cfg table c now outcome).2 = .sendFailed) :
    (send_slack_alert cfg table c now outcome).1 = table ∧
    ∀ now' : ℚ, now ≤ now' → ∀ o' : TransportOutcome,
      (send_slack_alert cfg table c now' o').2 = .sent ∨
      (send_slack_alert cfg table c now' o').2 = .sendFailed := by
  by_cases hm : cfg.maintenance_mode
  · simp [send_slack_alert, hm] at h
  by_cases hw : webhookConfigured cfg.slack_webhook_url
  case neg => simp [send_slack_alert, hm, hw] at h
  rcases htc : table c with _ | t
  · constructor
    · rcases outcome with s | _
      · by_cases hs : s = 200
        · simp [send_slack_alert, hm, hw, htc, hs] at h
        · simp [send_slack_alert, hm, hw, htc, hs]
      · simp [send_slack_alert, hm, hw, htc]
    · intro now' hle o'
      rcases o' with s | _
      · by_cases hs : s = 200 <;> simp [send_slack_alert, hm, hw, htc, hs]
      · simp [send_slack_alert, hm, hw, htc]
  · by_cases hcd : now - t < cfg.alert_cooldown_sec
    · simp [send_slack_alert, hm, hw, htc, hcd] at h
    · constructor
      · rcases outcome with s | _
        · by_cases hs : s = 200
          · simp [send_slack_alert, hm, hw, htc, hcd, hs] at h
          · simp [send_slack_alert, hm, hw, htc, hcd, hs]
        · simp [send_slack_alert, hm, hw, htc, hcd]
      · intro now' hle o'
        have hcd' : ¬ (now' - t < cfg.alert_cooldown_sec) := by
          intro hlt; exact hcd (by linarith)
        rcases o' with s | _
        · by_cases hs : s = 200 <;> simp [send_slack_alert, hm, hw, htc, hcd', hs]
        · simp [send_slack_alert, hm, hw, htc, hcd']

/-- Witness for C5: a failed first dispatch leaves the empty table unchanged,
and a retry 100 seconds later with a 200 response is sent. -/
theorem C5_transport_failure_keeps_cooldown_witness :
    (send_slack_alert ⟨false, some "hook", 300⟩ (fun _ => none) "failover" 0 .failure).1 =
      (fun _ => none) ∧
    ((send_slack_alert ⟨false, some "hook", 300⟩ (fun _ => none) "failover" 100
        (.response 200)).2 = .sent ∨
     (send_slack_alert ⟨false, some "hook", 300⟩ (fun _ => none) "failover" 100
        (.response 200)).2 = .sendFailed) := by
  have h := C5_transport_failure_keeps_cooldown ⟨false, some "hook", 300⟩ (fun _ => none)
    "failover" 0 .failure (by decide)
  exact ⟨h.1, h.2 100 (by norm_num) (.response 200)⟩

/-- C6: suppression checks run in the fixed order maintenance mode, missing
webhook, cooldown, first match winning; with maintenance mode on, no dispatch
reaches the transport (the result is `suppressedMaintenance` and the table is
untouched for every outcome, table, and time). -/
theorem C6_suppression_order (cfg : Config) (table : CooldownTable) (c : String)
    (now : ℚ) (outcome : TransportOutcome) :
    (cfg.maintenance_mode = true →
      send_slack_alert cfg table c now outcome = (table, .suppressedMaintenance)) ∧
    (cfg.maintenance_mode = false → webhookConfigured cfg.slack_webhook_url = false →
      send_slack_alert cfg table c now outcome = (table, .suppressedUnconfigured)) ∧
    (∀ t : ℚ, cfg.maintenance_mode = false →
      webhookConfigured cfg.slack_webhook_url = true →
      table c = some t → now - t < cfg.alert_cooldown_sec →
      send_slack_alert cfg table c now outcome = (table, .suppressedCooldown)) := by
  refine ⟨?_, ?_, ?_⟩
  · intro hm
    simp [send_slack_alert, hm]
  · intro hm hw
    simp [send_slack_alert, hm, hw]
  · intro t hm hw ht hcd
    simp [send_slack_alert, hm, hw, ht, hcd]

/-- Witness for C6: the three suppression outcomes at concrete inputs —
maintenance beats everything, a missing webhook suppresses next, and a
100-second-old send within a 300-second cooldown suppresses last. -/
theorem C6_suppression_order_witness :
    send_slack_alert ⟨true, some "hook", 300⟩ (fun _ => none) "failover" 0 .failure =
      ((fun _ => none), .suppressedMaintenance) ∧
    send_slack_alert ⟨false, none, 300⟩ (fun _ => none) "failover" 0 .failure =
      ((fun _ => none), .suppressedUnconfigured) ∧
    send_slack_alert ⟨false, some "hook", 300⟩ (tableSet (fun _ => none) "failover" 0)
        "failover" 100 .failure =
      (tableSet (fun _ => none) "failover" 0, .suppressedCooldown) :=
  ⟨(C6_suppression_order ⟨true, some "hook", 300⟩ (fun _ => none) "failover" 0 .failure).1
      rfl,
   (C6_suppression_order ⟨false, none, 300⟩ (fun _ => none) "failover" 0 .failure).2.1
      rfl rfl,
   (C6_suppression_order ⟨false, some "hook", 300⟩ (tableSet (fun _ => none) "failover" 0)
      "failover" 100 .failure).2.2 0 rfl (by decide) (by simp [tableSet]) (by norm_num)⟩

/-- C7: after a successful send of category `c` at time `t`, the table records
`lastSent c = t`; every dispatch of `c` at a time `u` with `u - t` below the
cooldown is suppressed as a cooldown (table unchanged); and a different
category `d` is untouched: its table entry is unchanged and its dispatch
result is the same as with the pre-send table — one cooldown clock per
category. -/
theorem C7_per_category_cooldown (cfg : Config) (table : CooldownTable)
    (c : String) (t : ℚ) (outcome : TransportOutcome)
    (h : (send_slack_alert cfg table c t outcome).2 = .sent) :
    ((send_slack_alert cfg table c t outcome).1) c = some t ∧
    (∀ u : ℚ, ∀ o' : TransportOutcome, u - t < cfg.alert_cooldown_sec →
      send_slack_alert cfg ((send_slack_alert cfg table c t outcome).1) c u o' =
        ((send_slack_alert cfg table c t outcome).1, .suppressedCooldown)) ∧
    (∀ d : String, d ≠ c →
      ((send_slack_alert cfg table c t outcome).1) d = table d ∧
      ∀ u : ℚ, ∀ o' : TransportOutcome,
        (send_slack_alert cfg ((send_slack_alert cfg table c t outcome).1) d u o').2 =
          (send_slack_alert cfg table d u o').2) := by
  by_cases hm : cfg.maintenance_mode
  · simp [send_slack_alert, hm] at h
  by_cases hw : webhookConfigured cfg.slack_webhook_url
  case neg => simp [send_slack_alert, hm, hw] at h
  have hT : (send_slack_alert cfg table c t outcome).1 = tableSet table c t := by
    rcases htc : table c with _ | t0
    · rcases outcome with s | _
      · by_cases hs : s = 200
        · simp [send_slack_alert, hm, hw, htc, hs]
        · simp [send_slack_alert, hm, hw, htc, hs] at h
      · simp [send_slack_alert, hm, hw, htc] at h
    · by_cases hcd : t - t0 < cfg.alert_cooldown_sec
      · simp [send_slack_alert, hm, hw, htc, hcd] at h
      · rcases outcome with s | _
        · by_cases hs : s = 200
          · simp [send_slack_alert, hm, hw, htc, hcd, hs]
          · simp [send_slack_alert, hm, hw, htc, hcd, hs] at h
        · simp [send_slack_alert, hm, hw, htc, hcd] at h
  rw [hT]
  refine ⟨by simp [tableSet], ?_, ?_⟩
  · intro u o' hcd'
    have hset : tableSet table c t c = some t := by simp [tableSet]
    simp [send_slack_alert, hm, hw, hset, hcd']
  · intro d hd
    have hentry : tableSet table c t d = table d := by simp [tableSet, hd]
    exact ⟨hentry, fun u o' => send_result_only_entry cfg _ table d u o' hentry⟩

/-- Witness for C7: with cooldown 300, a successful failover send at time 0
makes a failover dispatch at time 100 cooldown-suppressed (one transport call
for the two dispatches), while the error-rate category has no recorded send
and dispatches as before. -/
theorem C7_per_category_cooldown_witness :
    ((send_slack_alert ⟨false, some "hook", 300⟩ (fun _ => none) "failover" 0
        (.response 200)).1) "failover" = some 0 ∧
    send_slack_alert ⟨false, some "hook", 300⟩
        ((send_slack_alert ⟨false, some "hook", 300⟩ (fun _ => none) "failover" 0
          (.response 200)).1) "failover" 100 .failure =
      ((send_slack_alert ⟨false, some "hook", 300⟩ (fun _ => none) "failover" 0
          (.response 200)).1, .suppressedCooldown) ∧
    ((send_slack_alert ⟨false, some "hook", 300⟩ (fun _ => none) "failover" 0
        (.response 200)).1) "error_rate" = none ∧
    (send_slack_alert ⟨false, some "hook", 300⟩
        ((send_slack_alert ⟨false, some "hook", 300⟩ (fun _ => none) "failover" 0
          (.response 200)).1) "error_rate" 100 (.response 200)).2 =
      (send_slack_alert ⟨false, some "hook", 300⟩ (fun _ => none) "error_rate" 100
        (.response 200)).2 := by
  have h := C7_per_category_cooldown ⟨false, some "hook", 300⟩ (fun _ => none) "failover" 0
    (.response 200) (by decide)
  exact ⟨h.1, h.2.1 100 .failure (by norm_num), (h.2.2 "error_rate" (by decide)).1,
    (h.2.2 "error_rate" (by decide)).2 100 (.response 200)⟩

/-- C8: the first pool label observed from the unestablished state sets the
baseline without raising an alert, whatever its (nonempty) value, and an
event with no pool label leaves any detector state unchanged and raises
nothing. -/
theorem C8_baseline_set_and_no_pool_ignored (p : String) (hp : p ≠ "")
    (st : Option String) :
    detect_failover none (some p) = (some p, none) ∧
    detect_failover st none = (st, none) := by
  constructor
  · simp [detect_failover, hp]
  · simp [detect_failover]

/-- Witness for C8 at the label blue and the established state green. -/
theorem C8_baseline_witness :
    detect_failover none (some "blue") = (some "blue", none) ∧
    detect_failover (some "green") none = (some "green", none) :=
  C8_baseline_set_and_no_pool_ignored "blue" (by decide) (some "green")

/-- C9 (counterexample): the claim fails for a parsed event whose
`upstream_status` is present but zero: the line `upstream_status=0` parses to
an event with `upstream_status = some 0`, yet the driver's truthiness test
`if data['upstream_status']:` skips it — the window stays empty and the
counter stays 0, refuting "no exception for any particular status value". -/
theorem C9_counterexample_zero_status_not_appended :
    parse_log_line "upstream_status=0" =
      some { pool := none, release := none, upstream_status := some 0, upstream := none,
             request_time := none, upstream_time := none, status := none } ∧
    (mainStep 200 ⟨none, [], 0⟩
      { pool := none, release := none, upstream_status := some 0, upstream := none,
        request_time := none, upstream_time := none, status := none }).1 =
      ⟨none, [], 0⟩ :=
  ⟨by rfl, by rfl⟩

/-- C9 (amended): for every parsed event whose `upstream_status` is present
and nonzero, the driver step appends that status to the bounded window and
increments the request counter. -/
theorem C9_nonzero_status_appended (cap : Nat) (st : LoopState) (e : RequestEvent)
    (n : Nat) (hn : e.upstream_status = some n) (h0 : n ≠ 0) :
    (mainStep cap st e).1.request_window = windowAppend cap st.request_window n ∧
    (mainStep cap st e).1.request_count = st.request_count + 1 := by
  rcases hp : e.pool with _ | p
  · simp [mainStep, hn, h0, hp]
  · by_cases hpe : p = "" <;> simp [mainStep, hn, h0, hp, hpe]

/-- Witness for C9: an event with upstream status 500 is appended to the
empty window and counted. -/
theorem C9_nonzero_status_appended_witness :
    (mainStep 200 ⟨none, [], 0⟩
      { pool := some "blue", release := none, upstream_status := some 500, upstream := none,
        request_time := none, upstream_time := none, status := none }).1.request_window =
      windowAppend 200 [] 500 ∧
    (mainStep 200 ⟨none, [], 0⟩
      { pool := some "blue", release := none, upstream_status := some 500, upstream := none,
        request_time := none, upstream_time := none, status := none }).1.request_count =
      0 + 1 :=
  C9_nonzero_status_appended 200 ⟨none, [], 0⟩ _ 500 rfl (by decide)

/-- C10: on a pool change from an established baseline, `last_pool` is set to
the new label whatever the dispatch configuration, cooldown table and
transport outcome (including suppression and delivery failure), and a later
event with the same new pool causes no further dispatch in any configuration. -/
theorem C10_last_pool_update_unconditional (cfg : Config) (table : CooldownTable)
    (now : ℚ) (outcome : TransportOutcome) (p q : String)
    (hq : q ≠ "") (hpq : q ≠ p) :
    (detect_failover_step cfg table now outcome (some p) (some q)).1 = some q ∧
    ∀ (cfg' : Config) (table' : CooldownTable) (now' : ℚ) (o' : TransportOutcome),
      (detect_failover_step cfg' table' now' o' (some q) (some q)).1 = some q ∧
      (detect_failover_step cfg' table' now' o' (some q) (some q)).2.2 = none := by
  constructor
  · simp [detect_failover_step, detect_failover, hq, hpq]
  · intro cfg' table' now' o'
    constructor <;> simp [detect_failover_step, detect_failover, hq]

/-- Witness for C10: with maintenance mode on (alert suppressed), the change
blue to green still updates the held pool, and a repeat green event dispatches
nothing. -/
theorem C10_last_pool_update_witness :
    (detect_failover_step ⟨true, none, 300⟩ (fun _ => none) 0 .failure
      (some "blue") (some "green")).1 = some "green" ∧
    (detect_failover_step ⟨true, none, 300⟩ (fun _ => none) 5 .failure
      (some "green") (some "green")).1 = some "green" ∧
    (detect_failover_step ⟨true, none, 300⟩ (fun _ => none) 5 .failure
      (some "green") (some "green")).2.2 = none := by
  have h := C10_last_pool_update_unconditional ⟨true, none, 300⟩ (fun _ => none) 0 .failure
    "blue" "green" (by decide) (by decide)
  exact ⟨h.1, (h.2 ⟨true, none, 300⟩ (fun _ => none) 5 .failure).1,
    (h.2 ⟨true, none, 300⟩ (fun _ => none) 5 .failure).2⟩
